import Mathlib

/-!
Shallow embedding of the task-orchestration core of the Slack/Claude bot
(`app.py`) together with the pieces of `config.py` it reads, and proofs of
the behavioural properties claimed about it.

The Python function `run_claude_sdk` is modelled as a pure function over an
environment (`Env`) that records the behaviour of its effectful
collaborators: the `ClaudeCodeOptions` constructor, the streaming `query`
call, the `subprocess.run` CLI fallback, and `json.loads` on the fallback's
stdout.  Python exceptions are modelled by `PyErr`, which records whether
the raised value is an instance of `Exception` (as opposed to a bare
`BaseException` such as `asyncio.CancelledError`, which `except Exception`
does not catch).
-/

namespace SlackClaude

/-! ## `format_code_blocks` (app.py lines 257-261)

`re.sub(r'```(\w+)?\n(.*?)```', r'```\2```', text, flags=re.DOTALL)`.

The regex is embedded directly as a scanning function on the character
list: at each position, try to match three backticks, then a (greedy,
optional) run of word characters, then a newline, then a shortest body up
to the next three backticks; on a match emit three backticks, the body and
three backticks, and continue after the match, exactly as `re.sub` does.
-/

/-- The backtick character, U+0060. -/
def btick : Char := Char.ofNat 96

/-- Python's `\w` on the characters appearing here: letters, digits and
underscore.  (Python's `\w` also matches non-ASCII word characters; the
claims are about the structure of the pattern, not the Unicode word
classes.) -/
def isWordChar (c : Char) : Bool := c.isAlphanum || c = '_'

/-- Does the list start with three backticks? -/
def startsTriple : List Char → Bool
  | c1 :: c2 :: c3 :: _ => c1 = btick && c2 = btick && c3 = btick
  | _ => false

/-- Find the first occurrence of three consecutive backticks; return the
characters before it and the characters after it.  This is the non-greedy
`(.*?)` followed by the closing fence. -/
def findClose : List Char → Option (List Char × List Char)
  | [] => none
  | c :: rest =>
    if startsTriple (c :: rest) then some ([], rest.drop 2)
    else (findClose rest).map (fun p => (c :: p.1, p.2))

/-- Try to match the whole pattern ```` ```(\w+)?\n(.*?)``` ```` at the head
of the list.  On success, return the replacement text `` ```\2``` `` and the
remainder of the input after the match. -/
def tryMatch (cs : List Char) : Option (List Char × List Char) :=
  if startsTriple cs then
    match (cs.drop 3).dropWhile isWordChar with
    | [] => none
    | nl :: afterNl =>
      if nl = '\n' then
        match findClose afterNl with
        | some p => some ([btick, btick, btick] ++ p.1 ++ [btick, btick, btick], p.2)
        | none => none
      else none
  else none

theorem dropWhile_length_le (p : Char → Bool) (l : List Char) :
    (l.dropWhile p).length ≤ l.length := by
  have h := List.takeWhile_append_dropWhile (p := p) (l := l)
  calc (l.dropWhile p).length
      ≤ (l.takeWhile p).length + (l.dropWhile p).length := Nat.le_add_left _ _
    _ = (l.takeWhile p ++ l.dropWhile p).length := (List.length_append _ _).symm
    _ = l.length := by rw [h]

theorem findClose_length_lt :
    ∀ (l b r : List Char), findClose l = some (b, r) → r.length < l.length := by
  intro l
  induction l with
  | nil => intro b r h; simp [findClose] at h
  | cons c rest ih =>
    intro b r h
    rw [findClose] at h
    by_cases hs : startsTriple (c :: rest) = true
    · rw [if_pos hs] at h
      injection h with h1
      injection h1 with hb hr
      subst hr
      have := List.length_drop 2 rest
      simp only [List.length_cons]
      omega
    · rw [if_neg hs] at h
      cases hfc : findClose rest with
      | none => rw [hfc] at h; cases h
      | some p =>
        rw [hfc] at h
        rw [show Option.map (fun p => (c :: p.1, p.2)) (some p) =
              some (c :: p.1, p.2) from rfl] at h
        injection h with h1
        injection h1 with hb hr
        subst hr
        have := ih p.1 p.2 (by rw [hfc])
        simp only [List.length_cons]
        omega

theorem tryMatch_length_lt :
    ∀ (cs rep rest : List Char), tryMatch cs = some (rep, rest) → rest.length < cs.length := by
  intro cs rep rest h
  unfold tryMatch at h
  by_cases hs : startsTriple cs = true
  · simp [hs] at h
    cases hd : (cs.drop 3).dropWhile isWordChar with
    | nil => rw [hd] at h; simp at h
    | cons nl afterNl =>
      rw [hd] at h
      by_cases hnl : nl = '\n'
      · simp [hnl] at h
        cases hfc : findClose afterNl with
        | none => rw [hfc] at h; simp at h
        | some p =>
          rw [hfc] at h
          simp at h
          obtain ⟨hrep, hrest⟩ := h
          subst hrest
          have h1 : p.2.length < afterNl.length := by
            obtain ⟨b, r⟩ := p
            exact findClose_length_lt afterNl b r hfc
          have h2 : ((cs.drop 3).dropWhile isWordChar).length = afterNl.length + 1 := by
            rw [hd]; rfl
          have h3 : ((cs.drop 3).dropWhile isWordChar).length ≤ (cs.drop 3).length :=
            dropWhile_length_le _ _
          have h4 : (cs.drop 3).length ≤ cs.length := by
            rw [List.length_drop]; omega
          omega
      · simp [hnl] at h
  · simp [hs] at h

/-- The scanning loop of `re.sub`: find the leftmost match, emit the
replacement, continue after the match; characters before a match are
copied verbatim. -/
def fmtAux : List Char → List Char
  | [] => []
  | c :: rest =>
    match h : tryMatch (c :: rest) with
    | some p => p.1 ++ fmtAux p.2
    | none => c :: fmtAux rest
termination_by cs => cs.length
decreasing_by
  · exact tryMatch_length_lt _ _ _ h
  · simp

/-- `format_code_blocks` from app.py: rewrite each fenced block
`` ```lang\nbody``` `` to `` ```body``` ``. -/
def format_code_blocks (text : String) : String := String.mk (fmtAux text.data)

/-- Does the pattern's opening part (three backticks, an optional word, a
newline) match at the head of the list? -/
def isFenceOpenAt (cs : List Char) : Bool :=
  startsTriple cs &&
    match (cs.drop 3).dropWhile isWordChar with
    | nl :: _ => nl = '\n'
    | [] => false

/-- Does the string contain, at any position, three backticks followed by an
optional word and a newline? -/
def hasFenceOpen : List Char → Bool
  | [] => false
  | c :: rest => isFenceOpenAt (c :: rest) || hasFenceOpen rest

/-- Does the list contain three consecutive backticks anywhere? -/
def hasTriple : List Char → Bool
  | [] => false
  | c :: rest => startsTriple (c :: rest) || hasTriple rest

theorem tryMatch_eq_none_of_not_open (cs : List Char) (h : isFenceOpenAt cs = false) :
    tryMatch cs = none := by
  unfold tryMatch
  unfold isFenceOpenAt at h
  by_cases hs : startsTriple cs = true
  · simp [hs] at h ⊢
    cases hd : (cs.drop 3).dropWhile isWordChar with
    | nil => simp
    | cons nl afterNl =>
      rw [hd] at h
      simp at h
      simp [h]
  · simp [hs]

theorem fmtAux_nil : fmtAux [] = [] := by
  unfold fmtAux
  rfl

theorem fmtAux_cons_none (c : Char) (rest : List Char)
    (h : tryMatch (c :: rest) = none) : fmtAux (c :: rest) = c :: fmtAux rest := by
  conv_lhs => unfold fmtAux
  split
  · rename_i p heq; rw [h] at heq; cases heq
  · rfl

theorem fmtAux_cons_some (c : Char) (rest rep rest' : List Char)
    (h : tryMatch (c :: rest) = some (rep, rest')) :
    fmtAux (c :: rest) = rep ++ fmtAux rest' := by
  conv_lhs => unfold fmtAux
  split
  · rename_i p heq
    rw [h] at heq
    cases heq
    rfl
  · rename_i heq; rw [h] at heq; cases heq

theorem fmtAux_id_of_no_open :
    ∀ (cs : List Char), hasFenceOpen cs = false → fmtAux cs = cs := by
  intro cs
  induction cs with
  | nil => intro _; exact fmtAux_nil
  | cons c rest ih =>
    intro h
    unfold hasFenceOpen at h
    simp only [Bool.or_eq_false_iff] at h
    rw [fmtAux_cons_none c rest (tryMatch_eq_none_of_not_open _ h.1)]
    rw [ih h.2]

theorem fmtAux_of_tryMatch (cs rep rest' : List Char)
    (h : tryMatch cs = some (rep, rest')) : fmtAux cs = rep ++ fmtAux rest' := by
  cases cs with
  | nil => simp [tryMatch, startsTriple] at h
  | cons c rest => exact fmtAux_cons_some c rest rep rest' h

theorem startsTriple_append (l m : List Char) (h : 3 ≤ l.length) :
    startsTriple (l ++ m) = startsTriple l := by
  cases l with
  | nil => simp at h
  | cons a l1 =>
    cases l1 with
    | nil => simp at h
    | cons b l2 =>
      cases l2 with
      | nil => simp at h
      | cons c t => rfl

theorem findClose_of_no_triple :
    ∀ (body : List Char), hasTriple (body ++ [btick, btick]) = false →
      findClose (body ++ [btick, btick, btick]) = some (body, []) := by
  intro body
  induction body with
  | nil => intro _; rfl
  | cons c body' ih =>
    intro h
    rw [List.cons_append, hasTriple, Bool.or_eq_false_iff] at h
    have hlen : 3 ≤ (c :: body' ++ [btick, btick]).length := by
      simp [List.length_append]
    have hst : startsTriple (c :: (body' ++ [btick, btick, btick])) = false := by
      have heq : c :: (body' ++ [btick, btick, btick]) =
          (c :: body' ++ [btick, btick]) ++ [btick] := by simp
      rw [heq, startsTriple_append _ _ hlen]
      exact h.1
    rw [List.cons_append, findClose]
    rw [if_neg (by simp [hst])]
    rw [ih h.2]
    rfl

theorem tryMatch_fence (lang body : List Char)
    (hl : lang.all isWordChar = true)
    (hb : hasTriple (body ++ [btick, btick]) = false) :
    tryMatch ([btick, btick, btick] ++ (lang ++ '\n' :: body ++ [btick, btick, btick])) =
      some ([btick, btick, btick] ++ body ++ [btick, btick, btick], []) := by
  unfold tryMatch
  have hst : startsTriple
      ([btick, btick, btick] ++ (lang ++ '\n' :: body ++ [btick, btick, btick])) = true := by
    simp [startsTriple]
  rw [if_pos hst]
  have hdrop :
      (([btick, btick, btick] ++ (lang ++ '\n' :: body ++ [btick, btick, btick])).drop 3) =
        lang ++ '\n' :: body ++ [btick, btick, btick] := by
    rfl
  rw [hdrop]
  have hword : (lang ++ '\n' :: body ++ [btick, btick, btick]).dropWhile isWordChar =
      '\n' :: (body ++ [btick, btick, btick]) := by
    rw [show lang ++ '\n' :: body ++ [btick, btick, btick] =
          lang ++ ('\n' :: (body ++ [btick, btick, btick])) by simp]
    rw [List.dropWhile_append_of_pos (List.all_eq_true.mp hl)]
    rw [List.dropWhile_cons_of_neg (by simp [isWordChar])]
  rw [hword]
  simp [findClose_of_no_triple body hb]

/-- The three-backtick fence delimiter of the markdown pattern. -/
def fenceStr : String := "```"

theorem fenceStr_data : fenceStr.data = [btick, btick, btick] := by decide

/-- Claim C10: `format_code_blocks` leaves alone any string with no
occurrence of three backticks followed by an optional word and a newline,
and rewrites a fenced block `` ```lang\nbody``` `` (word-only language tag,
no stray triple backticks inside) to `` ```body``` ``, removing the
language identifier and the newline after it. -/
theorem claim_C10_format_blocks :
    (∀ s : String, hasFenceOpen s.data = false → format_code_blocks s = s) ∧
    (∀ lang body : String, lang.data.all isWordChar = true →
      hasTriple (body.data ++ [btick, btick]) = false →
      format_code_blocks (fenceStr ++ lang ++ "\n" ++ body ++ fenceStr) =
        fenceStr ++ body ++ fenceStr) := by
  constructor
  · intro s h
    unfold format_code_blocks
    rw [fmtAux_id_of_no_open s.data h]
  · intro lang body hl hb
    unfold format_code_blocks
    have hn : ("\n" : String).data = ['\n'] := by decide
    have hdata : (fenceStr ++ lang ++ "\n" ++ body ++ fenceStr).data =
        [btick, btick, btick] ++ (lang.data ++ '\n' :: body.data ++ [btick, btick, btick]) := by
      simp only [String.data_append, fenceStr_data, hn]
      simp
    rw [hdata]
    rw [fmtAux_of_tryMatch _ _ _ (tryMatch_fence lang.data body.data hl hb)]
    rw [fmtAux_nil, List.append_nil]
    have hout : ([btick, btick, btick] ++ body.data ++ [btick, btick, btick]) =
        (fenceStr ++ body ++ fenceStr).data := by
      simp only [String.data_append, fenceStr_data]
    rw [hout]

/-! ## Python primitives used by `run_claude_sdk` -/

/-- Does the pattern match at the head of the character list? -/
def matchesAt : List Char → List Char → Bool
  | [], _ => true
  | _ :: _, [] => false
  | p :: ps, c :: cs => p = c && matchesAt ps cs

/-- Does the pattern occur anywhere in the character list? -/
def occursIn (pat : List Char) : List Char → Bool
  | [] => matchesAt pat []
  | c :: cs => matchesAt pat (c :: cs) || occursIn pat cs

/-- Python's `pat in s` substring test. -/
def containsSub (s pat : String) : Bool := occursIn pat.data s.data

/-- The characters stripped by Python's `str.strip()` (the ASCII whitespace
characters; `str.strip` also strips some Unicode spaces, which never occur
in the strings this program manipulates). -/
def isPySpace (c : Char) : Bool :=
  c = ' ' || c = '\t' || c = '\n' || c = '\r' || c = Char.ofNat 11 || c = Char.ofNat 12

/-- Python's `str.strip()` on the character list: remove leading and
trailing whitespace. -/
def stripChars (cs : List Char) : List Char :=
  ((cs.dropWhile isPySpace).reverse.dropWhile isPySpace).reverse

/-- Python's `str.strip()`. -/
def pyStrip (s : String) : String := String.mk (stripChars s.data)

/-- Python's `str.lower()` (on the ASCII range; the error messages this is
applied to are ASCII apart from fixed emoji). -/
def pyLower (s : String) : String := String.mk (s.data.map Char.toLower)

/-- Python's `x or default` for an optional string: the default is used when
the value is `None` or the empty string (both falsy). -/
def pyOrStr (a : Option String) (b : String) : String :=
  match a with
  | some s => if s = "" then b else s
  | none => b

/-- Python truthiness of an optional string (`if x:`): true exactly for a
non-`None`, non-empty string. -/
def isTruthyStr : Option String → Bool
  | none => false
  | some s => s != ""

/-- `str(Path(p))` from app.py line 94.  `Path("")` prints as `"."`; other
normalisations (removal of trailing slashes, collapsing of `//`) are not
modelled — the claims only use that the same value flows to the streaming
configuration and to the fallback call, and that it is non-empty. -/
def pathStr (p : String) : String := if p = "" then "." else p

/-- A raised Python value.  `isException` records whether it is an instance
of `Exception`: `except Exception` (app.py lines 131 and 237) catches it
exactly when `isException = true`.  `asyncio.CancelledError` — what a
caller-initiated cancellation raises at the `async for` suspension point —
derives only from `BaseException`, so it is modelled with
`isException = false`. -/
structure PyErr where
  msg : String
  isException : Bool
deriving DecidableEq, Repr

/-! ## Data model of the streamed messages (app.py lines 205-215)

`run_claude_sdk` duck-types each message: a message with a `subtype`
attribute is a turn outcome (the SDK's `ResultMessage`, which also carries
`session_id`, `total_cost_usd` and an optional `result` text); otherwise a
message with a `content` attribute is an assistant message whose content
items may carry `text`.  Costs are modelled as rationals (the float values
are only copied around, never computed with). -/

/-- One item of an assistant message's `content` list; only items with a
`text` attribute are read. -/
inductive ContentItem where
  | text (t : String)
  | other
deriving DecidableEq, Repr

/-- A streamed message. -/
inductive Message where
  | outcome (subtype : String) (session_id : Option String) (total_cost_usd : Rat)
      (result : Option String)
  | assistant (content : List ContentItem)
deriving DecidableEq, Repr

/-- Is the message a turn outcome with subtype `success` or
`error_max_turns` (the messages whose fields lines 207-210 record)? -/
def isAuthoritative : Message → Bool
  | .outcome subtype _ _ _ => subtype = "success" || subtype = "error_max_turns"
  | .assistant _ => false

/-- The accumulator of the extraction loop at lines 199-215.
`result_text` starts as the Python string `""` and can be overwritten with
`getattr(msg, 'result', None)`, which may be `None`; it is therefore an
optional string whose initial value is `some ""`. -/
structure AggState where
  result_text : Option String
  session_id : Option String
  total_cost : Rat
  assistant_responses : List String
deriving DecidableEq, Repr

/-- The texts collected from a `content` list (lines 213-215: items with a
`text` attribute). -/
def itemTexts (content : List ContentItem) : List String :=
  content.filterMap (fun ci =>
    match ci with
    | .text t => some t
    | .other => none)

/-- One iteration of the `for msg in messages` loop (lines 205-215). -/
def stepMsg (st : AggState) (m : Message) : AggState :=
  match m with
  | .outcome subtype sid cost res =>
    if subtype = "success" || subtype = "error_max_turns" then
      { st with session_id := sid, total_cost := cost, result_text := res }
    else st
  | .assistant content =>
    { st with assistant_responses := st.assistant_responses ++ itemTexts content }

/-- The whole extraction loop over the buffered messages. -/
def aggregate (msgs : List Message) : AggState :=
  msgs.foldl stepMsg
    { result_text := some "", session_id := none, total_cost := 0, assistant_responses := [] }

/-- The content texts contributed by one message. -/
def msgTexts : Message → List String
  | .assistant content => itemTexts content
  | .outcome _ _ _ _ => []

/-- The texts of the buffered content chunks, in arrival order. -/
def contentTexts (msgs : List Message) : List String :=
  (msgs.map msgTexts).flatten

/-! ## Result finalization (app.py lines 217-235) -/

/-- `"\n\n".join(assistant_responses)`. -/
def joinNN (xs : List String) : String := String.intercalate "\n\n" xs

/-- The note appended at line 225 (without the `\n\n` that precedes it in
the source literal). -/
def analysisIncompleteNote : String :=
  "âš ï¸ **Analysis incomplete** - Hit maximum turn limit. The task was complex and may need continuation. Use the same command again to continue the analysis, or try breaking it into smaller parts."

/-- The replacement text assigned at line 227. -/
def taskInterruptedNote : String :=
  "âš ï¸ **Task interrupted** - The analysis hit the maximum turn limit before completion. Try breaking the request into smaller, more specific parts or use a more focused query."

/-- Line 218: if `result_text` is falsy and there are assistant responses,
join them. -/
def textAfterJoin (st : AggState) : Option String :=
  if !(isTruthyStr st.result_text) && !st.assistant_responses.isEmpty then
    some (joinNN st.assistant_responses)
  else st.result_text

/-- Line 222: `not result_text or len(result_text.strip()) < 50`. -/
def needsNoteOf (st : AggState) : Bool :=
  match textAfterJoin st with
  | none => true
  | some s => s == "" || decide ((pyStrip s).length < 50)

/-- Lines 217-227: the finalized result text before the final `.strip()`.
(The `none` fall-through of the last line is unreachable: when
`textAfterJoin` is `none` the note branch is taken.) -/
def finalizeText (st : AggState) : String :=
  if needsNoteOf st then
    if st.assistant_responses.isEmpty then taskInterruptedNote
    else joinNN st.assistant_responses ++ "\n\n" ++ analysisIncompleteNote
  else (textAfterJoin st).getD ""

/-- The dictionary returned by `run_claude_sdk`.  Success returns carry
`success`, `result`, `session_id`, `cost` (lines 174-189 and 229-235);
failure returns carry `success`, `error`, `result` (lines 251-255) — the
missing keys read through `.get` by the callers are modelled as
`none` / `0`. -/
structure SdkResult where
  success : Bool
  result : String
  session_id : Option String
  cost : Rat
  error : Option String
deriving DecidableEq, Repr

/-- Lines 199-235: aggregate the buffered messages and finalize. -/
def streamResult (msgs : List Message) : SdkResult :=
  let st := aggregate msgs
  { success := true
    result := pyStrip (finalizeText st)
    session_id := st.session_id
    cost := st.total_cost
    error := none }

/-! ## Error classification and rewriting -/

/-- Line 134: `"JSONDecodeError" in str(query_error) or "TaskGroup" in
str(query_error)` — the transient class of streaming errors. -/
def isTransient (msg : String) : Bool :=
  containsSub msg "JSONDecodeError" || containsSub msg "TaskGroup"

/-- The message of the `RuntimeError` raised at line 195 when both the SDK
stream and the CLI fallback failed. -/
def bothFailedMsg : String :=
  "Both SDK and CLI failed. Try breaking your request into smaller, more specific parts."

/-- Line 243. -/
def parseErrorNote : String :=
  "âš ï¸ Claude encountered a parsing error with complex output. This often happens with very large responses. Try:\n\nâ€¢ Breaking your request into smaller parts\nâ€¢ Being more specific about what you want\nâ€¢ Using a simpler query format"

/-- Line 247. -/
def timeoutNote : String :=
  "â±ï¸ Task timed out. Try breaking it into smaller parts or being more specific."

/-- Line 249. -/
def focusedNote : String :=
  "ðŸ”§ Try using a more focused request or breaking complex tasks into steps."

/-- The environment-derived configuration read from config.py:
`MAX_TURNS` (line 46), `DEFAULT_REPO_PATH` (line 24) and
`ANTHROPIC_MODEL` (line 17; `os.getenv` yields `None` when unset). -/
structure Config where
  MAX_TURNS : Nat
  DEFAULT_REPO_PATH : String
  ANTHROPIC_MODEL : Option String
deriving DecidableEq, Repr

/-- Lines 241-249: rewrite the user-facing error message by substring
matching. -/
def rewriteErrorMessage (cfg : Config) (msg : String) : String :=
  if containsSub msg "TaskGroup" || containsSub msg "JSONDecodeError" then
    parseErrorNote
  else if containsSub msg "cwd" then
    "Working directory issue. Please check " ++ cfg.DEFAULT_REPO_PATH ++ " exists."
  else if containsSub (pyLower msg) "timeout" then
    timeoutNote
  else if containsSub msg "parsing error" then
    focusedNote
  else msg

/-! ## Configuration merging (app.py lines 91-116) -/

/-- The caller-supplied `options` dict.  In the repository the callers only
ever pass `max_turns` (line 361); `cwd` is included because the merge at
line 99 would let it override the default.  Any other key only influences
whether `ClaudeCodeOptions(**default_options)` accepts the merged dict,
which is abstracted by `Env.ctorFull` below. -/
structure CallOptions where
  max_turns : Option Nat
  cwd : Option (Option String)
deriving DecidableEq, Repr

/-- `options` argument used by every in-repo caller that passes none. -/
def noOpts : CallOptions := { max_turns := none, cwd := none }

/-- The merged `default_options` dict after lines 91-107, restricted to the
keys the orchestrator logic reads. -/
structure EffOptions where
  max_turns : Nat
  cwd : Option String
  model : Option String
  resume : Option String
deriving DecidableEq, Repr

/-- Lines 91-107: defaults, caller overrides, model, resume. -/
def buildOptions (cfg : Config) (opts : CallOptions) (session_id : Option String)
    (working_dir : Option String) : EffOptions :=
  let repo_path := pyOrStr working_dir cfg.DEFAULT_REPO_PATH
  { max_turns :=
      match opts.max_turns with
      | some n => n
      | none => cfg.MAX_TURNS
    cwd :=
      match opts.cwd with
      | some o => o
      | none => some (pathStr repo_path)
    model :=
      match cfg.ANTHROPIC_MODEL with
      | some m => if m = "" then none else some m
      | none => none
    resume :=
      match session_id with
      | some t => if t = "" then none else some t
      | none => none }

/-- Behaviour of `ClaudeCodeOptions(**default_options)` at line 110: it
either succeeds, raises a `TypeError` (caught at line 111, triggering the
minimal retry), or raises some other error (not caught there). -/
inductive CtorOutcome where
  | ok
  | typeError (msg : String)
  | otherError (e : PyErr)
deriving DecidableEq, Repr

/-- A recorded call to the `ClaudeCodeOptions` constructor: the full merged
configuration (line 110) or the minimal retry carrying only the turn
budget (lines 114-116). -/
inductive CtorCall where
  | fullCall (eff : EffOptions)
  | minimalCall (max_turns : Nat)
deriving DecidableEq, Repr

/-- A completed `subprocess.run` of the CLI fallback (lines 155-168). -/
structure FallbackProc where
  returncode : Int
  stdout : String
  stderr : String
deriving DecidableEq, Repr

/-- A recorded invocation of the CLI fallback: the prompt, the `cwd` passed
to `subprocess.run` (omitted when `default_options.get('cwd')` is falsy,
line 153) and the `--max-turns` budget (line 150). -/
structure FallbackCall where
  prompt : String
  cwd : Option String
  max_turns : Nat
deriving DecidableEq, Repr

/-- The effect trace of one run: which constructor calls and fallback
invocations happened, in order. -/
structure Trace where
  ctorCalls : List CtorCall
  fallbackCalls : List FallbackCall
deriving DecidableEq, Repr

/-- Outcome of `json.loads(result_proc.stdout)` at line 173 together with
the subsequent `.get` at line 176:
`decodeError` — `json.loads` raises `JSONDecodeError` (caught at
line 181, so the raw stdout is used);
`dictObj r` — the text parses to a dict, whose `.get('result')` is `r`
(`none` when the key is absent, so the stdout default is used);
`nonDict` — the text parses to a non-dict JSON value (e.g. `[]`, `null`,
a number), on which `.get` raises `AttributeError`, which the
`except JSONDecodeError` clause does not catch. -/
inductive JsonOutcome where
  | decodeError
  | dictObj (result : Option String)
  | nonDict
deriving DecidableEq, Repr

/-- The behaviour of the effectful collaborators during one run:
the configuration read from the process environment, the two possible
constructor calls, the streaming `query` call (the events it yields
before completing or raising), the fallback `subprocess.run`
(`none` models a raise, e.g. `TimeoutExpired`), and `json.loads` applied
to the fallback's stdout (see `JsonOutcome`). -/
structure Env where
  cfg : Config
  ctorFull : CtorOutcome
  ctorMinimal : Option PyErr
  queryEvents : List Message
  queryError : Option PyErr
  cliRun : Option FallbackProc
  cliJson : String → JsonOutcome

/-- The fallback invocation built at lines 147-153 from the merged
options. -/
def mkFallbackCall (prompt : String) (eff : EffOptions) : FallbackCall :=
  { prompt := prompt
    cwd :=
      match eff.cwd with
      | some c => if c = "" then none else some c
      | none => none
    max_turns := eff.max_turns }

/-- Lines 142-195: run the CLI fallback.  A zero exit returns a successful
result built from the parsed dict's `result` field or the raw stdout,
with no session id and zero cost (lines 170-189) — unless the zero-exit
stdout parses to a non-dict JSON value, in which case `.get` at line 176
raises `AttributeError`, not caught by the `except JSONDecodeError`
clause.  A non-zero exit raises `RuntimeError("CLI fallback failed: ...")`
(line 191).  Any raise inside the block — the `AttributeError`, that
`RuntimeError` and `subprocess` errors — is caught at line 193 and
re-raised as `RuntimeError(bothFailedMsg)`. -/
def runFallback (env : Env) : Except PyErr SdkResult :=
  match env.cliRun with
  | some proc =>
    if proc.returncode = 0 then
      match env.cliJson proc.stdout with
      | JsonOutcome.dictObj resField =>
        Except.ok
          { success := true
            result := resField.getD proc.stdout
            session_id := none
            cost := 0
            error := none }
      | JsonOutcome.decodeError =>
        Except.ok
          { success := true
            result := proc.stdout
            session_id := none
            cost := 0
            error := none }
      | JsonOutcome.nonDict => Except.error { msg := bothFailedMsg, isException := true }
    else Except.error { msg := bothFailedMsg, isException := true }
  | none => Except.error { msg := bothFailedMsg, isException := true }

/-- Lines 121-235, after the constructor succeeded: consume the stream,
classify a raised error (lines 131-197), fall back or degrade, and
finalize. -/
def afterQuery (env : Env) (prompt : String) (eff : EffOptions) (tr : Trace) :
    Except PyErr SdkResult × Trace :=
  match env.queryError with
  | none => (Except.ok (streamResult env.queryEvents), tr)
  | some qe =>
    if qe.isException then
      if isTransient qe.msg then
        if env.queryEvents.isEmpty then
          (runFallback env,
            { tr with fallbackCalls := tr.fallbackCalls ++ [mkFallbackCall prompt eff] })
        else
          (Except.ok (streamResult env.queryEvents), tr)
      else (Except.error qe, tr)
    else (Except.error qe, tr)

/-- The body of the outer `try` (lines 89-235).  The result is `.error e`
when a raise escapes the body, paired with the trace of constructor and
fallback calls. -/
def runBody (env : Env) (prompt : String) (opts : CallOptions) (session_id : Option String)
    (working_dir : Option String) : Except PyErr SdkResult × Trace :=
  let eff := buildOptions env.cfg opts session_id working_dir
  match env.ctorFull with
  | CtorOutcome.ok =>
    afterQuery env prompt eff { ctorCalls := [CtorCall.fullCall eff], fallbackCalls := [] }
  | CtorOutcome.typeError _ =>
    match env.ctorMinimal with
    | some e =>
      (Except.error e,
        { ctorCalls := [CtorCall.fullCall eff, CtorCall.minimalCall eff.max_turns]
          fallbackCalls := [] })
    | none =>
      afterQuery env prompt eff
        { ctorCalls := [CtorCall.fullCall eff, CtorCall.minimalCall eff.max_turns]
          fallbackCalls := [] }
  | CtorOutcome.otherError e =>
    (Except.error e, { ctorCalls := [CtorCall.fullCall eff], fallbackCalls := [] })

/-- `run_claude_sdk` (lines 82-255).  The outer `except Exception` (line
237) turns an `Exception`-class raise into a failure dictionary whose
`error` and `result` are the rewritten message; a `BaseException`-only
raise (such as `asyncio.CancelledError`) is not caught and propagates to
the caller, which the returned `Except.error` models. -/
def run_claude_sdk (env : Env) (prompt : String) (opts : CallOptions)
    (session_id : Option String) (working_dir : Option String) :
    Except PyErr SdkResult × Trace :=
  match runBody env prompt opts session_id working_dir with
  | (Except.ok r, tr) => (Except.ok r, tr)
  | (Except.error e, tr) =>
    if e.isException then
      (Except.ok
        { success := false
          result := rewriteErrorMessage env.cfg e.msg
          session_id := none
          cost := 0
          error := some (rewriteErrorMessage env.cfg e.msg) }, tr)
    else (Except.error e, tr)

/-- Projection used to state concrete evaluations: the returned dictionary,
if the call returned rather than raised. -/
def okResult (x : Except PyErr SdkResult) : Option SdkResult :=
  match x with
  | Except.ok r => some r
  | Except.error _ => none

/-- Projection: the raised value, if the call raised. -/
def errResult (x : Except PyErr SdkResult) : Option PyErr :=
  match x with
  | Except.ok _ => none
  | Except.error e => some e

/-! ## Session registry (app.py lines 36 and 364-366)

`active_sessions` is a string-keyed dictionary; `handle_code_command`
reads `active_sessions.get(session_key)` before the run and writes
`active_sessions[session_key] = result['session_id']` only when
`result.get('session_id')` is truthy. -/

/-- Lines 364-366: the registry update performed after a run. -/
def updateSession (sessions : String → Option String) (session_key : String)
    (res : SdkResult) : String → Option String :=
  match res.session_id with
  | some t =>
    if t = "" then sessions
    else fun k => if k = session_key then some t else sessions k
  | none => sessions

/-- Did the run's constructor phase complete (so that the streaming call is
reached)?  True when the full constructor succeeds, or when it raises a
`TypeError` and the minimal retry succeeds. -/
def ctorOk (env : Env) : Bool :=
  match env.ctorFull with
  | CtorOutcome.ok => true
  | CtorOutcome.typeError _ => env.ctorMinimal.isNone
  | CtorOutcome.otherError _ => false

/-- Does the run reach the result-finalization code (lines 199-235)?
True when the constructor phase completes and the stream either completes
or raises a transient-class `Exception` after at least one buffered
event (the degraded path, lines 136-138). -/
def reachesFinalize (env : Env) : Bool :=
  ctorOk env &&
    match env.queryError with
    | none => true
    | some qe => qe.isException && isTransient qe.msg && !env.queryEvents.isEmpty

/-! ## Lemmas about the aggregation loop -/

theorem stepMsg_not_auth (st : AggState) (m : Message) (h : isAuthoritative m = false) :
    (stepMsg st m).result_text = st.result_text ∧
    (stepMsg st m).session_id = st.session_id ∧
    (stepMsg st m).total_cost = st.total_cost := by
  cases m with
  | outcome subtype sid cost res =>
    simp only [isAuthoritative] at h
    simp only [stepMsg]
    rw [if_neg (by simp [h])]
    exact ⟨rfl, rfl, rfl⟩
  | assistant content => exact ⟨rfl, rfl, rfl⟩

theorem foldl_no_auth :
    ∀ (msgs : List Message) (acc : AggState), msgs.filter isAuthoritative = [] →
      (msgs.foldl stepMsg acc).result_text = acc.result_text ∧
      (msgs.foldl stepMsg acc).session_id = acc.session_id ∧
      (msgs.foldl stepMsg acc).total_cost = acc.total_cost := by
  intro msgs
  induction msgs with
  | nil => intro acc _; exact ⟨rfl, rfl, rfl⟩
  | cons m t ih =>
    intro acc h
    rw [List.filter_cons] at h
    by_cases hm : isAuthoritative m = true
    · rw [if_pos hm] at h; cases h
    · rw [if_neg hm] at h
      have hm' : isAuthoritative m = false := by
        cases hb : isAuthoritative m
        · rfl
        · exact absurd hb hm
      have hstep := stepMsg_not_auth acc m hm'
      have hrec := ih (stepMsg acc m) h
      rw [List.foldl_cons]
      exact ⟨hrec.1.trans hstep.1, hrec.2.1.trans hstep.2.1, hrec.2.2.trans hstep.2.2⟩

theorem aggregate_no_auth (msgs : List Message) (h : msgs.filter isAuthoritative = []) :
    (aggregate msgs).result_text = some "" ∧
    (aggregate msgs).session_id = none ∧
    (aggregate msgs).total_cost = 0 :=
  foldl_no_auth msgs _ h

theorem foldl_last_auth :
    ∀ (msgs : List Message) (acc : AggState) (subtype : String) (sid : Option String)
      (cost : Rat) (res : Option String),
      (msgs.filter isAuthoritative).getLast? = some (Message.outcome subtype sid cost res) →
      (msgs.foldl stepMsg acc).result_text = res ∧
      (msgs.foldl stepMsg acc).session_id = sid ∧
      (msgs.foldl stepMsg acc).total_cost = cost := by
  intro msgs
  induction msgs using List.reverseRecOn with
  | nil => intro acc subtype sid cost res h; simp [List.filter] at h
  | append_singleton t m ih =>
    intro acc subtype sid cost res h
    rw [List.foldl_append, List.foldl_cons, List.foldl_nil]
    rw [List.filter_append] at h
    by_cases hm : isAuthoritative m = true
    · rw [show List.filter isAuthoritative [m] = [m] by simp [hm]] at h
      rw [List.getLast?_concat] at h
      injection h with h
      subst h
      simp only [isAuthoritative] at hm
      simp only [stepMsg]
      rw [if_pos hm]
      exact ⟨rfl, rfl, rfl⟩
    · have hm' : isAuthoritative m = false := by
        cases hb : isAuthoritative m
        · rfl
        · exact absurd hb hm
      rw [show List.filter isAuthoritative [m] = [] by simp [hm']] at h
      rw [List.append_nil] at h
      have hrec := ih acc subtype sid cost res h
      have hstep := stepMsg_not_auth (t.foldl stepMsg acc) m hm'
      exact ⟨hstep.1.trans hrec.1, hstep.2.1.trans hrec.2.1, hstep.2.2.trans hrec.2.2⟩

theorem aggregate_last_auth (msgs : List Message) (subtype : String) (sid : Option String)
    (cost : Rat) (res : Option String)
    (h : (msgs.filter isAuthoritative).getLast? = some (Message.outcome subtype sid cost res)) :
    (aggregate msgs).result_text = res ∧
    (aggregate msgs).session_id = sid ∧
    (aggregate msgs).total_cost = cost :=
  foldl_last_auth msgs _ subtype sid cost res h

theorem stepMsg_responses (st : AggState) (m : Message) :
    (stepMsg st m).assistant_responses = st.assistant_responses ++ msgTexts m := by
  cases m with
  | outcome subtype sid cost res =>
    simp only [stepMsg, msgTexts]
    by_cases hm : (decide (subtype = "success") || decide (subtype = "error_max_turns")) = true
    · rw [if_pos hm]; simp
    · rw [if_neg hm]; simp
  | assistant content => rfl

theorem foldl_responses :
    ∀ (msgs : List Message) (acc : AggState),
      (msgs.foldl stepMsg acc).assistant_responses =
        acc.assistant_responses ++ contentTexts msgs := by
  intro msgs
  induction msgs with
  | nil => intro acc; simp [contentTexts]
  | cons m t ih =>
    intro acc
    rw [List.foldl_cons, ih (stepMsg acc m), stepMsg_responses]
    unfold contentTexts
    simp [List.append_assoc]

theorem aggregate_responses (msgs : List Message) :
    (aggregate msgs).assistant_responses = contentTexts msgs := by
  unfold aggregate
  rw [foldl_responses]
  rfl

/-! ## Lemmas about `pyStrip` -/

theorem mem_dropWhile_of_not (p : Char → Bool) (c : Char) :
    ∀ (l : List Char), c ∈ l → p c = false → c ∈ l.dropWhile p := by
  intro l
  induction l with
  | nil => intro h _; cases h
  | cons a t ih =>
    intro hm hp
    by_cases ha : p a = true
    · rw [List.dropWhile_cons_of_pos ha]
      cases hm with
      | head => rw [hp] at ha; cases ha
      | tail _ ht => exact ih ht hp
    · rw [List.dropWhile_cons_of_neg ha]
      exact hm

theorem stripChars_ne_nil (cs : List Char) (c : Char) (hc : c ∈ cs)
    (hp : isPySpace c = false) : stripChars cs ≠ [] := by
  intro h
  unfold stripChars at h
  rw [List.reverse_eq_nil_iff] at h
  rw [List.dropWhile_eq_nil_iff] at h
  have h1 : c ∈ (cs.dropWhile isPySpace).reverse :=
    List.mem_reverse.mpr (mem_dropWhile_of_not isPySpace c cs hc hp)
  have := h c h1
  rw [hp] at this
  cases this

theorem pyStrip_ne_empty (s : String) (c : Char) (hc : c ∈ s.data)
    (hp : isPySpace c = false) : pyStrip s ≠ "" := by
  intro h
  unfold pyStrip at h
  have : stripChars s.data = [] := by
    have := congrArg String.data h
    simpa using this
  exact stripChars_ne_nil s.data c hc hp this

/-- Stripping a string that ends with a block whose first and last
characters are non-whitespace keeps that block as a suffix. -/
theorem stripChars_append_suffix (y nd : List Char)
    (d : Char) (nd' : List Char) (hnd : nd = d :: nd') (hd : isPySpace d = false)
    (e : Char) (he : nd.getLast? = some e) (hpe : isPySpace e = false) :
    ∃ w, stripChars (y ++ nd) = w ++ nd := by
  have hdnd : nd.dropWhile isPySpace = nd := by
    rw [hnd, List.dropWhile_cons_of_neg (by rw [hd]; exact Bool.false_ne_true)]
  have step1 : ∃ w, (y ++ nd).dropWhile isPySpace = w ++ nd := by
    rw [List.dropWhile_append]
    by_cases hy : (y.dropWhile isPySpace).isEmpty = true
    · rw [if_pos hy, hdnd]
      exact ⟨[], rfl⟩
    · rw [if_neg hy]
      exact ⟨y.dropWhile isPySpace, rfl⟩
  obtain ⟨w, hw⟩ := step1
  have hrev : nd.reverse.head? = some e := by rw [List.head?_reverse]; exact he
  obtain ⟨tl, htl⟩ : ∃ tl, nd.reverse = e :: tl := by
    cases hr : nd.reverse with
    | nil => rw [hr] at hrev; cases hrev
    | cons a t =>
      rw [hr] at hrev
      injection hrev with ha
      exact ⟨t, by rw [ha]⟩
  refine ⟨w, ?_⟩
  unfold stripChars
  rw [hw]
  rw [List.reverse_append, htl, List.cons_append]
  rw [List.dropWhile_cons_of_neg (by rw [hpe]; exact Bool.false_ne_true)]
  rw [← List.cons_append, ← htl, ← List.reverse_append, List.reverse_reverse]

/-- `textEndsWith s suffix`: does `s` end with `suffix`? -/
def textEndsWith (s suffix : String) : Bool :=
  s.data.drop (s.data.length - suffix.data.length) == suffix.data

theorem textEndsWith_of_append (w nd : List Char) :
    textEndsWith (String.mk (w ++ nd)) (String.mk nd) = true := by
  unfold textEndsWith
  have hdrop : (w ++ nd).drop ((w ++ nd).length - nd.length) = nd := by
    rw [List.length_append]
    rw [show w.length + nd.length - nd.length = w.length by omega]
    exact List.drop_left w nd
  simp [hdrop]

/-! ## Lemmas about the run paths -/

theorem run_trace (env : Env) (prompt : String) (opts : CallOptions)
    (session_id working_dir : Option String) :
    (run_claude_sdk env prompt opts session_id working_dir).2 =
      (runBody env prompt opts session_id working_dir).2 := by
  unfold run_claude_sdk
  rcases h : runBody env prompt opts session_id working_dir with ⟨r, tr⟩
  cases r with
  | ok v => rfl
  | error e =>
    by_cases he : e.isException = true
    · simp [he]
    · simp [he]

theorem run_of_body_ok (env : Env) (prompt : String) (opts : CallOptions)
    (session_id working_dir : Option String) (r : SdkResult)
    (h : (runBody env prompt opts session_id working_dir).1 = Except.ok r) :
    (run_claude_sdk env prompt opts session_id working_dir).1 = Except.ok r := by
  unfold run_claude_sdk
  rcases hb : runBody env prompt opts session_id working_dir with ⟨x, tr⟩
  rw [hb] at h
  simp at h
  subst h
  rfl

theorem run_of_body_error (env : Env) (prompt : String) (opts : CallOptions)
    (session_id working_dir : Option String) (e : PyErr)
    (h : (runBody env prompt opts session_id working_dir).1 = Except.error e)
    (he : e.isException = true) :
    (run_claude_sdk env prompt opts session_id working_dir).1 =
      Except.ok
        { success := false
          result := rewriteErrorMessage env.cfg e.msg
          session_id := none
          cost := 0
          error := some (rewriteErrorMessage env.cfg e.msg) } := by
  unfold run_claude_sdk
  rcases hb : runBody env prompt opts session_id working_dir with ⟨x, tr⟩
  rw [hb] at h
  simp at h
  subst h
  simp [he]

theorem run_propagates (env : Env) (prompt : String) (opts : CallOptions)
    (session_id working_dir : Option String) (e : PyErr)
    (h : (runBody env prompt opts session_id working_dir).1 = Except.error e)
    (he : e.isException = false) :
    (run_claude_sdk env prompt opts session_id working_dir).1 = Except.error e := by
  unfold run_claude_sdk
  rcases hb : runBody env prompt opts session_id working_dir with ⟨x, tr⟩
  rw [hb] at h
  simp at h
  subst h
  simp [he]

theorem runBody_finalize (env : Env) (prompt : String) (opts : CallOptions)
    (session_id working_dir : Option String) (h : reachesFinalize env = true) :
    (runBody env prompt opts session_id working_dir).1 =
      Except.ok (streamResult env.queryEvents) ∧
    (runBody env prompt opts session_id working_dir).2.fallbackCalls = [] := by
  unfold reachesFinalize at h
  rw [Bool.and_eq_true] at h
  obtain ⟨hc, hq⟩ := h
  have hafter : ∀ tr : Trace,
      afterQuery env prompt (buildOptions env.cfg opts session_id working_dir) tr =
        (Except.ok (streamResult env.queryEvents), tr) := by
    intro tr
    cases hqe : env.queryError with
    | none => unfold afterQuery; simp only [hqe]
    | some qe =>
      rw [hqe] at hq
      simp only [Bool.and_eq_true, Bool.not_eq_true'] at hq
      unfold afterQuery
      simp only [hqe]
      rw [if_pos hq.1.1, if_pos hq.1.2, if_neg (by rw [hq.2]; exact Bool.false_ne_true)]
  unfold runBody
  cases hcf : env.ctorFull with
  | ok => simp [hafter]
  | typeError m =>
    simp only [ctorOk, hcf] at hc
    cases hcm : env.ctorMinimal with
    | some e => rw [hcm] at hc; exact (Bool.false_ne_true hc).elim
    | none => simp [hcm, hafter]
  | otherError e =>
    simp only [ctorOk, hcf] at hc
    exact (Bool.false_ne_true hc).elim

theorem runBody_fallback (env : Env) (prompt : String) (opts : CallOptions)
    (session_id working_dir : Option String) (qe : PyErr)
    (hc : ctorOk env = true) (hq : env.queryError = some qe)
    (hexc : qe.isException = true) (htr : isTransient qe.msg = true)
    (hempty : env.queryEvents = []) :
    (runBody env prompt opts session_id working_dir).1 = runFallback env ∧
    (runBody env prompt opts session_id working_dir).2.fallbackCalls =
      [mkFallbackCall prompt (buildOptions env.cfg opts session_id working_dir)] := by
  have hafter : ∀ tr : Trace,
      afterQuery env prompt (buildOptions env.cfg opts session_id working_dir) tr =
        (runFallback env,
          { tr with fallbackCalls := tr.fallbackCalls ++
              [mkFallbackCall prompt (buildOptions env.cfg opts session_id working_dir)] }) := by
    intro tr
    unfold afterQuery
    simp only [hq]
    rw [if_pos hexc, if_pos htr, if_pos (by rw [hempty]; rfl)]
  unfold runBody
  cases hcf : env.ctorFull with
  | ok => simp [hafter]
  | typeError m =>
    simp only [ctorOk, hcf] at hc
    cases hcm : env.ctorMinimal with
    | some e => rw [hcm] at hc; exact (Bool.false_ne_true hc).elim
    | none => simp [hcm, hafter]
  | otherError e =>
    simp only [ctorOk, hcf] at hc
    exact (Bool.false_ne_true hc).elim

theorem pathStr_ne_empty (p : String) : pathStr p ≠ "" := by
  unfold pathStr
  by_cases h : p = ""
  · rw [if_pos h]; decide
  · rw [if_neg h]; exact h

/-- Is the list non-empty with a non-whitespace first character? -/
def headNotSpace (l : List Char) : Bool :=
  match l with
  | [] => false
  | c :: _ => !isPySpace c

/-- Is the list non-empty with a non-whitespace last character? -/
def lastNotSpace (l : List Char) : Bool :=
  match l.getLast? with
  | some c => !isPySpace c
  | none => false

theorem stripChars_append_keep (y nd : List Char)
    (h1 : headNotSpace nd = true) (h2 : lastNotSpace nd = true) :
    ∃ w, stripChars (y ++ nd) = w ++ nd := by
  cases nd with
  | nil => simp [headNotSpace] at h1
  | cons d nd' =>
    simp only [headNotSpace, Bool.not_eq_true'] at h1
    obtain ⟨e, he, hpe⟩ : ∃ e, (d :: nd').getLast? = some e ∧ isPySpace e = false := by
      unfold lastNotSpace at h2
      cases hg : (d :: nd').getLast? with
      | none => rw [hg] at h2; cases h2
      | some c =>
        rw [hg] at h2
        simp only [Bool.not_eq_true'] at h2
        exact ⟨c, rfl, h2⟩
    exact stripChars_append_suffix y (d :: nd') d nd' rfl h1 e he hpe

theorem runFallback_ok_fields (env : Env) (v : SdkResult)
    (h : runFallback env = Except.ok v) :
    v.success = true ∧ v.session_id = none ∧ v.cost = 0 := by
  unfold runFallback at h
  cases hcli : env.cliRun with
  | none => simp only [hcli] at h; cases h
  | some proc =>
    simp only [hcli] at h
    by_cases hrc : proc.returncode = 0
    · rw [if_pos hrc] at h
      cases hjson : env.cliJson proc.stdout with
      | decodeError =>
        simp only [hjson] at h
        injection h with h
        rw [← h]
        exact ⟨rfl, rfl, rfl⟩
      | dictObj r =>
        simp only [hjson] at h
        injection h with h
        rw [← h]
        exact ⟨rfl, rfl, rfl⟩
      | nonDict => simp only [hjson] at h; cases h
    · rw [if_neg hrc] at h; cases h

theorem afterQuery_ctorCalls (env : Env) (prompt : String) (eff : EffOptions) (tr : Trace) :
    (afterQuery env prompt eff tr).2.ctorCalls = tr.ctorCalls := by
  unfold afterQuery
  cases hq : env.queryError with
  | none => rfl
  | some qe =>
    simp only
    by_cases h1 : qe.isException = true
    · by_cases h2 : isTransient qe.msg = true
      · by_cases h3 : env.queryEvents.isEmpty = true
        · simp [h1, h2, h3]
        · simp [h1, h2, h3]
      · simp [h1, h2]
    · simp [h1]

theorem runFallback_error_exc (env : Env) (e : PyErr)
    (h : runFallback env = Except.error e) : e.isException = true := by
  unfold runFallback at h
  cases hcli : env.cliRun with
  | none =>
    simp only [hcli] at h
    injection h with h
    rw [← h]
  | some proc =>
    simp only [hcli] at h
    by_cases hrc : proc.returncode = 0
    · rw [if_pos hrc] at h
      cases hjson : env.cliJson proc.stdout with
      | decodeError => simp only [hjson] at h; cases h
      | dictObj r => simp only [hjson] at h; cases h
      | nonDict =>
        simp only [hjson] at h
        injection h with h
        rw [← h]
    · rw [if_neg hrc] at h
      injection h with h
      rw [← h]

/-! ## Error propagation through the body -/

theorem afterQuery_error_exc (env : Env) (prompt : String) (eff : EffOptions) (tr : Trace)
    (e : PyErr)
    (h3 : ∀ qe, env.queryError = some qe → qe.isException = true)
    (h : (afterQuery env prompt eff tr).1 = Except.error e) : e.isException = true := by
  unfold afterQuery at h
  cases hq : env.queryError with
  | none => simp only [hq] at h; cases h
  | some qe =>
    simp only [hq] at h
    have hqe := h3 qe hq
    rw [if_pos hqe] at h
    by_cases ht : isTransient qe.msg = true
    · rw [if_pos ht] at h
      by_cases hemp : env.queryEvents.isEmpty = true
      · rw [if_pos hemp] at h
        exact runFallback_error_exc env e h
      · rw [if_neg hemp] at h; cases h
    · rw [if_neg ht] at h
      injection h with h
      rw [← h]
      exact hqe

theorem runBody_error_exc (env : Env) (prompt : String) (opts : CallOptions)
    (session_id working_dir : Option String) (e : PyErr)
    (h1 : ∀ e', env.ctorFull = CtorOutcome.otherError e' → e'.isException = true)
    (h2 : ∀ e', env.ctorMinimal = some e' → e'.isException = true)
    (h3 : ∀ qe, env.queryError = some qe → qe.isException = true)
    (h : (runBody env prompt opts session_id working_dir).1 = Except.error e) :
    e.isException = true := by
  unfold runBody at h
  cases hcf : env.ctorFull with
  | ok =>
    simp only [hcf] at h
    exact afterQuery_error_exc env prompt _ _ e h3 h
  | typeError m =>
    simp only [hcf] at h
    cases hcm : env.ctorMinimal with
    | some e' =>
      simp only [hcm] at h
      injection h with h
      rw [← h]
      exact h2 e' hcm
    | none =>
      simp only [hcm] at h
      exact afterQuery_error_exc env prompt _ _ e h3 h
  | otherError e' =>
    simp only [hcf] at h
    injection h with h
    rw [← h]
    exact h1 e' hcf

/-! ## Concrete runs used as witnesses and counterexamples -/

/-- A representative process configuration: the config.py defaults
(`MAX_TURNS=8`, `DEFAULT_REPO_PATH='/tmp/repos'`, no `ANTHROPIC_MODEL`). -/
def cfgW : Config :=
  { MAX_TURNS := 8, DEFAULT_REPO_PATH := "/tmp/repos", ANTHROPIC_MODEL := none }

/-- A run whose streaming call raises a plain (non-transient) exception. -/
def envW1 : Env :=
  { cfg := cfgW
    ctorFull := CtorOutcome.ok
    ctorMinimal := none
    queryEvents := []
    queryError := some { msg := "boom", isException := true }
    cliRun := none
    cliJson := fun _ => JsonOutcome.decodeError }

/-- A run that streams a single `success` outcome whose result text is the
short string `"ok"`. -/
def envC2 : Env :=
  { cfg := cfgW
    ctorFull := CtorOutcome.ok
    ctorMinimal := none
    queryEvents := [Message.outcome "success" (some "s1") 1 (some "ok")]
    queryError := none
    cliRun := none
    cliJson := fun _ => JsonOutcome.decodeError }

/-- A 60-character result text, comfortably above the length threshold. -/
def strW2 : String := String.mk (List.replicate 60 'a')

/-- A run that streams a single `success` outcome with a long result. -/
def envW2 : Env :=
  { cfg := cfgW
    ctorFull := CtorOutcome.ok
    ctorMinimal := none
    queryEvents := [Message.outcome "success" (some "s9") 2 (some strW2)]
    queryError := none
    cliRun := none
    cliJson := fun _ => JsonOutcome.decodeError }

/-- A transient streaming error raised before any event. -/
def qeW3 : PyErr := { msg := "JSONDecodeError: boom", isException := true }

/-- A run whose stream fails transiently with zero events and whose CLI
fallback exits zero with output `"okay"`. -/
def envW3 : Env :=
  { cfg := cfgW
    ctorFull := CtorOutcome.ok
    ctorMinimal := none
    queryEvents := []
    queryError := some qeW3
    cliRun := some { returncode := 0, stdout := "okay", stderr := "" }
    cliJson := fun _ => JsonOutcome.decodeError }

/-! ## The claims -/

/-- Claim C1: for every run in which the raised collaborator errors are
`Exception`-class (configuration, streaming and fallback errors all are —
only a `BaseException` such as a cancellation is not), `run_claude_sdk`
returns a result dictionary rather than raising, and when the body raised,
the returned dictionary has `success = false` and carries the rewritten
error message as its result text. -/
theorem claim_C1_no_raise (env : Env) (prompt : String) (opts : CallOptions)
    (session_id working_dir : Option String)
    (h1 : ∀ e', env.ctorFull = CtorOutcome.otherError e' → e'.isException = true)
    (h2 : ∀ e', env.ctorMinimal = some e' → e'.isException = true)
    (h3 : ∀ qe, env.queryError = some qe → qe.isException = true) :
    ∃ r, (run_claude_sdk env prompt opts session_id working_dir).1 = Except.ok r ∧
      (∀ e, (runBody env prompt opts session_id working_dir).1 = Except.error e →
        r.success = false ∧ r.result = rewriteErrorMessage env.cfg e.msg ∧
        r.error = some (rewriteErrorMessage env.cfg e.msg)) := by
  cases hb : (runBody env prompt opts session_id working_dir).1 with
  | ok v =>
    refine ⟨v, run_of_body_ok _ _ _ _ _ v hb, ?_⟩
    intro e he
    cases he
  | error e =>
    have hexc := runBody_error_exc env prompt opts session_id working_dir e h1 h2 h3 hb
    refine ⟨_, run_of_body_error env prompt opts session_id working_dir e hb hexc, ?_⟩
    intro e' he'
    injection he' with he'
    subst he'
    exact ⟨rfl, rfl, rfl⟩

theorem claim_C1_witness :
    ∃ r, (run_claude_sdk envW1 "p" noOpts none none).1 = Except.ok r ∧
      (∀ e, (runBody envW1 "p" noOpts none none).1 = Except.error e →
        r.success = false ∧ r.result = rewriteErrorMessage envW1.cfg e.msg ∧
        r.error = some (rewriteErrorMessage envW1.cfg e.msg)) :=
  claim_C1_no_raise envW1 "p" noOpts none none
    (by intro e' h; cases h)
    (by intro e' h; cases h)
    (by intro qe h; injection h with h; rw [← h])

set_option maxRecDepth 8192 in
/-- Claim C2 (corrected): streaming a `success` outcome whose result text
is `"ok"` does not make `"ok"` the returned text — the sub-50-character
finalization check replaces it with the fixed interruption note — although
`success = true` and the event's session id and cost are recorded. -/
theorem claim_C2_counterexample :
    okResult (run_claude_sdk envC2 "p" noOpts none none).1 =
      some { success := true, result := taskInterruptedNote, session_id := some "s1",
             cost := 1, error := none } ∧
    taskInterruptedNote ≠ "ok" := by
  constructor
  · decide
  · decide

/-- Claim C2 (amended): if the run reaches finalization and the last
turn-outcome event with subtype `success` or `error_max_turns` carried the
result text `s`, then the event's continuation token and cost are the ones
recorded (last such event wins) and — provided `s` is non-null and its
stripped length is at least the 50-character threshold — the returned
result text is `s` stripped, with `success = true`. -/
theorem claim_C2_amended (env : Env) (prompt : String) (opts : CallOptions)
    (session_id working_dir : Option String) (subtype : String) (sid : Option String)
    (cost : Rat) (s : String)
    (hfin : reachesFinalize env = true)
    (hlast : (env.queryEvents.filter isAuthoritative).getLast? =
      some (Message.outcome subtype sid cost (some s)))
    (hlen : 50 ≤ (pyStrip s).length) :
    (run_claude_sdk env prompt opts session_id working_dir).1 =
      Except.ok { success := true, result := pyStrip s, session_id := sid,
                  cost := cost, error := none } := by
  obtain ⟨hok, -⟩ := runBody_finalize env prompt opts session_id working_dir hfin
  have hagg := aggregate_last_auth env.queryEvents subtype sid cost (some s) hlast
  have hne : s ≠ "" := by
    intro h0
    rw [h0] at hlen
    have : (pyStrip "").length = 0 := by decide
    omega
  have htruthy : isTruthyStr (some s) = true := by
    simp [isTruthyStr, hne]
  have htaj : textAfterJoin (aggregate env.queryEvents) = some s := by
    unfold textAfterJoin
    rw [hagg.1]
    rw [if_neg (by simp [htruthy])]
  have hnn : needsNoteOf (aggregate env.queryEvents) = false := by
    unfold needsNoteOf
    simp only [htaj]
    have hb1 : (s == "") = false := by simp [hne]
    have hb2 : decide ((pyStrip s).length < 50) = false := by
      simp only [decide_eq_false_iff_not]
      omega
    rw [hb1, hb2]
    rfl
  have hft : finalizeText (aggregate env.queryEvents) = s := by
    unfold finalizeText
    rw [if_neg (by rw [hnn]; exact Bool.false_ne_true)]
    rw [htaj]
    rfl
  have hsr : streamResult env.queryEvents =
      { success := true, result := pyStrip s, session_id := sid,
        cost := cost, error := none } := by
    show { success := true, result := pyStrip (finalizeText (aggregate env.queryEvents)),
           session_id := (aggregate env.queryEvents).session_id,
           cost := (aggregate env.queryEvents).total_cost,
           error := none : SdkResult } =
         { success := true, result := pyStrip s, session_id := sid,
           cost := cost, error := none }
    rw [hft, hagg.2.1, hagg.2.2]
  rw [hsr] at hok
  exact run_of_body_ok _ _ _ _ _ _ hok

theorem claim_C2_witness :
    (run_claude_sdk envW2 "p" noOpts none none).1 =
      Except.ok { success := true, result := pyStrip strW2, session_id := some "s9",
                  cost := 2, error := none } :=
  claim_C2_amended envW2 "p" noOpts none none "success" (some "s9") 2 strW2
    (by decide) (by decide) (by decide)

/-- A run whose stream fails transiently with zero events and whose CLI
fallback exits zero printing valid non-dict JSON (e.g. `[]`), so that
`cli_result.get` at line 176 raises `AttributeError`. -/
def envC3 : Env :=
  { cfg := cfgW
    ctorFull := CtorOutcome.ok
    ctorMinimal := none
    queryEvents := []
    queryError := some { msg := "JSONDecodeError: bad frame", isException := true }
    cliRun := some { returncode := 0, stdout := "[]", stderr := "" }
    cliJson := fun _ => JsonOutcome.nonDict }

/-- Claim C3 (corrected): a fallback process that exits zero does not
always produce `succeeded = true` — when its stdout is valid non-dict
JSON, `json.loads` succeeds and `cli_result.get` (line 176) raises
`AttributeError`, which the `except JSONDecodeError` clause misses; the
raise is caught at line 193 and the run fails with the both-failed
message despite the zero exit. -/
theorem claim_C3_counterexample :
    (run_claude_sdk envC3 "p" noOpts none none).2.fallbackCalls =
      [{ prompt := "p",
         cwd := (buildOptions envC3.cfg noOpts none none).cwd,
         max_turns := (buildOptions envC3.cfg noOpts none none).max_turns }] ∧
    okResult (run_claude_sdk envC3 "p" noOpts none none).1 =
      some { success := false, result := bothFailedMsg, session_id := none,
             cost := 0, error := some bothFailedMsg } := by
  constructor
  · decide
  · decide

/-- Claim C3 (amended): when the streaming call raises a transient-class
exception after zero events (and the caller did not override the working
directory option), the CLI fallback is invoked exactly once, with the
same prompt, the same working directory as the effective configuration,
and the same turn budget; and whenever the fallback process exits zero
— and its stdout does not parse to a non-dict JSON value, on which the
`.get` at line 176 would raise — the run returns `success = true` with no
session id and zero cost. -/
theorem claim_C3_fallback_once (env : Env) (prompt : String) (opts : CallOptions)
    (session_id working_dir : Option String) (qe : PyErr)
    (hc : ctorOk env = true) (hcwd : opts.cwd = none)
    (hq : env.queryError = some qe) (hexc : qe.isException = true)
    (htr : isTransient qe.msg = true) (hempty : env.queryEvents = []) :
    (run_claude_sdk env prompt opts session_id working_dir).2.fallbackCalls =
      [{ prompt := prompt,
         cwd := (buildOptions env.cfg opts session_id working_dir).cwd,
         max_turns := (buildOptions env.cfg opts session_id working_dir).max_turns }] ∧
    (∀ proc, env.cliRun = some proc → proc.returncode = 0 →
      env.cliJson proc.stdout ≠ JsonOutcome.nonDict →
      ∃ r, (run_claude_sdk env prompt opts session_id working_dir).1 = Except.ok r ∧
        r.success = true ∧ r.session_id = none ∧ r.cost = 0) := by
  obtain ⟨h1, h2⟩ := runBody_fallback env prompt opts session_id working_dir qe
    hc hq hexc htr hempty
  constructor
  · rw [run_trace, h2]
    have hcwdval : (buildOptions env.cfg opts session_id working_dir).cwd =
        some (pathStr (pyOrStr working_dir env.cfg.DEFAULT_REPO_PATH)) := by
      simp [buildOptions, hcwd]
    unfold mkFallbackCall
    simp only [hcwdval]
    rw [if_neg (pathStr_ne_empty _)]
  · intro proc hproc hrc hnd
    have hfb : ∃ t, runFallback env =
        Except.ok { success := true, result := t, session_id := none,
                    cost := 0, error := none } := by
      unfold runFallback
      simp only [hproc]
      rw [if_pos hrc]
      cases hjson : env.cliJson proc.stdout with
      | decodeError => exact ⟨proc.stdout, rfl⟩
      | dictObj r => exact ⟨r.getD proc.stdout, rfl⟩
      | nonDict => exact absurd hjson hnd
    obtain ⟨t, ht⟩ := hfb
    exact ⟨_, run_of_body_ok _ _ _ _ _ _ (h1.trans ht), rfl, rfl, rfl⟩

theorem claim_C3_witness :
    (run_claude_sdk envW3 "p" noOpts none none).2.fallbackCalls =
      [{ prompt := "p",
         cwd := (buildOptions envW3.cfg noOpts none none).cwd,
         max_turns := (buildOptions envW3.cfg noOpts none none).max_turns }] ∧
    ∃ r, (run_claude_sdk envW3 "p" noOpts none none).1 = Except.ok r ∧
      r.success = true ∧ r.session_id = none ∧ r.cost = 0 := by
  obtain ⟨hcall, hres⟩ := claim_C3_fallback_once envW3 "p" noOpts none none qeW3
    (by decide) rfl rfl rfl (by decide) rfl
  exact ⟨hcall,
    hres { returncode := 0, stdout := "okay", stderr := "" } rfl (by decide) (by decide)⟩

/-- A transient streaming failure (a structured-concurrency aggregate
error). -/
def qeW4 : PyErr := { msg := "unhandled errors in a TaskGroup", isException := true }

/-- A run that buffers one short content chunk and then fails
transiently. -/
def envC4 : Env :=
  { cfg := cfgW
    ctorFull := CtorOutcome.ok
    ctorMinimal := none
    queryEvents := [Message.assistant [ContentItem.text "hi"]]
    queryError := some qeW4
    cliRun := none
    cliJson := fun _ => JsonOutcome.decodeError }

/-- A run that buffers one long content chunk and then fails
transiently. -/
def envW4 : Env :=
  { cfg := cfgW
    ctorFull := CtorOutcome.ok
    ctorMinimal := none
    queryEvents := [Message.assistant [ContentItem.text (String.mk (List.replicate 60 'b'))]]
    queryError := some { msg := "JSONDecodeError: truncated", isException := true }
    cliRun := none
    cliJson := fun _ => JsonOutcome.decodeError }

set_option maxRecDepth 8192 in
/-- Claim C4 (corrected): after a transient error with the short chunk
`"hi"` buffered, the fallback is indeed never invoked and the run is a
degraded success, but the returned text is not the chunk concatenation
`"hi"` — the sub-50-character check appends the incomplete-analysis
note. -/
theorem claim_C4_counterexample :
    okResult (run_claude_sdk envC4 "p" noOpts none none).1 =
      some { success := true, result := "hi" ++ "\n\n" ++ analysisIncompleteNote,
             session_id := none, cost := 0, error := none } ∧
    (run_claude_sdk envC4 "p" noOpts none none).2.fallbackCalls = [] ∧
    "hi" ++ "\n\n" ++ analysisIncompleteNote ≠ "hi" := by
  refine ⟨?_, ?_, ?_⟩
  · decide
  · decide
  · decide

/-- Claim C4 (amended): if the streaming call raises a transient-class
exception after at least one buffered event, none of which is an
authoritative turn outcome, and at least one content text was buffered,
then the fallback is never invoked, the run succeeds, and the returned
text is the buffered content texts joined by blank lines — stripped, and
with the incomplete-analysis note appended when the joined text is below
the 50-character threshold. -/
theorem claim_C4_amended (env : Env) (prompt : String) (opts : CallOptions)
    (session_id working_dir : Option String) (qe : PyErr)
    (hc : ctorOk env = true) (hq : env.queryError = some qe)
    (hexc : qe.isException = true) (htr : isTransient qe.msg = true)
    (hne : env.queryEvents ≠ [])
    (hnoauth : env.queryEvents.filter isAuthoritative = [])
    (hchunks : contentTexts env.queryEvents ≠ []) :
    (run_claude_sdk env prompt opts session_id working_dir).2.fallbackCalls = [] ∧
    (run_claude_sdk env prompt opts session_id working_dir).1 =
      Except.ok
        { success := true
          result := pyStrip (
            if (pyStrip (joinNN (contentTexts env.queryEvents))).length < 50 then
              joinNN (contentTexts env.queryEvents) ++ "\n\n" ++ analysisIncompleteNote
            else joinNN (contentTexts env.queryEvents))
          session_id := none
          cost := 0
          error := none } := by
  have hfin : reachesFinalize env = true := by
    unfold reachesFinalize
    rw [hc, Bool.true_and]
    simp only [hq]
    rw [hexc, htr]
    cases hev : env.queryEvents with
    | nil => exact absurd hev hne
    | cons a t => rfl
  obtain ⟨hok, hfb⟩ := runBody_finalize env prompt opts session_id working_dir hfin
  have hagg := aggregate_no_auth env.queryEvents hnoauth
  have hresp := aggregate_responses env.queryEvents
  have hrne : (aggregate env.queryEvents).assistant_responses ≠ [] := by
    rw [hresp]; exact hchunks
  have hremp : (aggregate env.queryEvents).assistant_responses.isEmpty = false := by
    cases hx : (aggregate env.queryEvents).assistant_responses with
    | nil => exact absurd hx hrne
    | cons a t => rfl
  have htaj : textAfterJoin (aggregate env.queryEvents) =
      some (joinNN (contentTexts env.queryEvents)) := by
    unfold textAfterJoin
    rw [hagg.1, hremp]
    rw [if_pos (by decide)]
    rw [hresp]
  refine ⟨by rw [run_trace]; exact hfb, ?_⟩
  by_cases hlt : (pyStrip (joinNN (contentTexts env.queryEvents))).length < 50
  · have hnn : needsNoteOf (aggregate env.queryEvents) = true := by
      unfold needsNoteOf
      simp only [htaj]
      rw [decide_eq_true hlt, Bool.or_true]
    have hft : finalizeText (aggregate env.queryEvents) =
        joinNN (contentTexts env.queryEvents) ++ "\n\n" ++ analysisIncompleteNote := by
      unfold finalizeText
      rw [if_pos hnn]
      rw [if_neg (by rw [hremp]; exact Bool.false_ne_true)]
      rw [hresp]
    have hsr : streamResult env.queryEvents =
        { success := true,
          result := pyStrip (
            if (pyStrip (joinNN (contentTexts env.queryEvents))).length < 50 then
              joinNN (contentTexts env.queryEvents) ++ "\n\n" ++ analysisIncompleteNote
            else joinNN (contentTexts env.queryEvents)),
          session_id := none, cost := 0, error := none } := by
      show { success := true, result := pyStrip (finalizeText (aggregate env.queryEvents)),
             session_id := (aggregate env.queryEvents).session_id,
             cost := (aggregate env.queryEvents).total_cost,
             error := none : SdkResult } = _
      rw [hft, hagg.2.1, hagg.2.2, if_pos hlt]
    rw [hsr] at hok
    exact run_of_body_ok _ _ _ _ _ _ hok
  · have hjne : (joinNN (contentTexts env.queryEvents) == "") = false := by
      simp only [beq_eq_false_iff_ne, ne_eq]
      intro h0
      rw [h0] at hlt
      have : (pyStrip "").length = 0 := by decide
      omega
    have hnn : needsNoteOf (aggregate env.queryEvents) = false := by
      unfold needsNoteOf
      simp only [htaj]
      rw [hjne, decide_eq_false hlt]
      rfl
    have hft : finalizeText (aggregate env.queryEvents) =
        joinNN (contentTexts env.queryEvents) := by
      unfold finalizeText
      rw [if_neg (by rw [hnn]; exact Bool.false_ne_true), htaj]
      rfl
    have hsr : streamResult env.queryEvents =
        { success := true,
          result := pyStrip (
            if (pyStrip (joinNN (contentTexts env.queryEvents))).length < 50 then
              joinNN (contentTexts env.queryEvents) ++ "\n\n" ++ analysisIncompleteNote
            else joinNN (contentTexts env.queryEvents)),
          session_id := none, cost := 0, error := none } := by
      show { success := true, result := pyStrip (finalizeText (aggregate env.queryEvents)),
             session_id := (aggregate env.queryEvents).session_id,
             cost := (aggregate env.queryEvents).total_cost,
             error := none : SdkResult } = _
      rw [hft, hagg.2.1, hagg.2.2, if_neg hlt]
    rw [hsr] at hok
    exact run_of_body_ok _ _ _ _ _ _ hok

set_option maxRecDepth 8192 in
theorem claim_C4_witness :
    (run_claude_sdk envW4 "p" noOpts none none).2.fallbackCalls = [] ∧
    (run_claude_sdk envW4 "p" noOpts none none).1 =
      Except.ok
        { success := true
          result := pyStrip (
            if (pyStrip (joinNN (contentTexts envW4.queryEvents))).length < 50 then
              joinNN (contentTexts envW4.queryEvents) ++ "\n\n" ++ analysisIncompleteNote
            else joinNN (contentTexts envW4.queryEvents))
          session_id := none
          cost := 0
          error := none } :=
  claim_C4_amended envW4 "p" noOpts none none
    { msg := "JSONDecodeError: truncated", isException := true }
    (by decide) rfl rfl (by decide) (by decide) (by decide) (by decide)

/-- A run whose full constructor call raises a `TypeError` and whose
minimal retry raises as well. -/
def envW6 : Env :=
  { cfg := cfgW
    ctorFull := CtorOutcome.typeError "unexpected keyword argument"
    ctorMinimal := some { msg := "minimal rejected", isException := true }
    queryEvents := []
    queryError := none
    cliRun := none
    cliJson := fun _ => JsonOutcome.decodeError }

/-- Claim C6: when the full merged configuration is rejected by the
options constructor (`TypeError`), construction is retried exactly once
with a minimal configuration containing only the turn budget; and if that
retry also raises (an `Exception`), the run returns `success = false`
carrying the (rewritten) constructor error as its error and result
text. -/
theorem claim_C6_config_retry (env : Env) (prompt : String) (opts : CallOptions)
    (session_id working_dir : Option String) (m : String)
    (hfull : env.ctorFull = CtorOutcome.typeError m) :
    (run_claude_sdk env prompt opts session_id working_dir).2.ctorCalls =
      [CtorCall.fullCall (buildOptions env.cfg opts session_id working_dir),
       CtorCall.minimalCall (buildOptions env.cfg opts session_id working_dir).max_turns] ∧
    (∀ e, env.ctorMinimal = some e → e.isException = true →
      (run_claude_sdk env prompt opts session_id working_dir).1 =
        Except.ok { success := false, result := rewriteErrorMessage env.cfg e.msg,
                    session_id := none, cost := 0,
                    error := some (rewriteErrorMessage env.cfg e.msg) }) := by
  constructor
  · rw [run_trace]
    unfold runBody
    simp only [hfull]
    cases hcm : env.ctorMinimal with
    | some e => simp only [hcm]
    | none =>
      simp only [hcm]
      rw [afterQuery_ctorCalls]
  · intro e hcm hexc
    have hbody : (runBody env prompt opts session_id working_dir).1 = Except.error e := by
      unfold runBody
      simp only [hfull, hcm]
    exact run_of_body_error env prompt opts session_id working_dir e hbody hexc

theorem claim_C6_witness :
    (run_claude_sdk envW6 "p" noOpts none none).2.ctorCalls =
      [CtorCall.fullCall (buildOptions envW6.cfg noOpts none none),
       CtorCall.minimalCall (buildOptions envW6.cfg noOpts none none).max_turns] ∧
    (run_claude_sdk envW6 "p" noOpts none none).1 =
      Except.ok { success := false,
                  result := rewriteErrorMessage envW6.cfg "minimal rejected",
                  session_id := none, cost := 0,
                  error := some (rewriteErrorMessage envW6.cfg "minimal rejected") } := by
  obtain ⟨h1, h2⟩ := claim_C6_config_retry envW6 "p" noOpts none none
    "unexpected keyword argument" rfl
  exact ⟨h1, h2 { msg := "minimal rejected", isException := true } rfl rfl⟩

/-- A run whose stream fails transiently with zero events and whose CLI
fallback exits zero with empty stdout. -/
def envC5 : Env :=
  { cfg := cfgW
    ctorFull := CtorOutcome.ok
    ctorMinimal := none
    queryEvents := []
    queryError := some { msg := "JSONDecodeError: empty", isException := true }
    cliRun := some { returncode := 0, stdout := "", stderr := "" }
    cliJson := fun _ => JsonOutcome.decodeError }

/-- A completed run that buffered only the short chunk `"shorty"`. -/
def envW5 : Env :=
  { cfg := cfgW
    ctorFull := CtorOutcome.ok
    ctorMinimal := none
    queryEvents := [Message.assistant [ContentItem.text "shorty"]]
    queryError := none
    cliRun := none
    cliJson := fun _ => JsonOutcome.decodeError }

set_option maxRecDepth 8192 in
/-- Claim C5 (corrected): the fallback path returns early and skips the
finalization check entirely — a fallback that exits zero with empty stdout
yields an empty result text with no continuation notice appended, even
though the text is empty. -/
theorem claim_C5_counterexample :
    okResult (run_claude_sdk envC5 "p" noOpts none none).1 =
      some { success := true, result := "", session_id := none, cost := 0, error := none } ∧
    textEndsWith "" analysisIncompleteNote = false ∧
    textEndsWith "" taskInterruptedNote = false := by
  refine ⟨?_, ?_, ?_⟩
  · decide
  · decide
  · decide

set_option maxRecDepth 8192 in
/-- Claim C5 (amended): on the runs that reach the finalization code (the
streaming and degraded paths, not the early-returning fallback path), an
empty or sub-50-character finalized text makes the returned text end with
the fixed incomplete-analysis note when buffered content exists, and
equal the fixed task-interrupted note otherwise. -/
theorem claim_C5_amended (env : Env) (prompt : String) (opts : CallOptions)
    (session_id working_dir : Option String)
    (hfin : reachesFinalize env = true)
    (hnote : needsNoteOf (aggregate env.queryEvents) = true) :
    ∃ r, (run_claude_sdk env prompt opts session_id working_dir).1 = Except.ok r ∧
      r.success = true ∧
      ((aggregate env.queryEvents).assistant_responses ≠ [] →
        textEndsWith r.result analysisIncompleteNote = true) ∧
      ((aggregate env.queryEvents).assistant_responses = [] →
        r.result = taskInterruptedNote) := by
  obtain ⟨hok, -⟩ := runBody_finalize env prompt opts session_id working_dir hfin
  refine ⟨streamResult env.queryEvents, run_of_body_ok _ _ _ _ _ _ hok, rfl, ?_, ?_⟩
  · intro hne
    have hremp : (aggregate env.queryEvents).assistant_responses.isEmpty = false := by
      cases hx : (aggregate env.queryEvents).assistant_responses with
      | nil => exact absurd hx hne
      | cons a t => rfl
    have hres : (streamResult env.queryEvents).result =
        pyStrip (joinNN (aggregate env.queryEvents).assistant_responses ++ "\n\n" ++
          analysisIncompleteNote) := by
      show pyStrip (finalizeText (aggregate env.queryEvents)) = _
      unfold finalizeText
      rw [if_pos hnote, if_neg (by rw [hremp]; exact Bool.false_ne_true)]
    rw [hres]
    obtain ⟨w, hw⟩ := stripChars_append_keep
      ((joinNN (aggregate env.queryEvents).assistant_responses ++ "\n\n").data)
      analysisIncompleteNote.data (by decide) (by decide)
    have hdata : (joinNN (aggregate env.queryEvents).assistant_responses ++ "\n\n" ++
        analysisIncompleteNote).data =
        (joinNN (aggregate env.queryEvents).assistant_responses ++ "\n\n").data ++
          analysisIncompleteNote.data := by
      rw [String.data_append]
    unfold pyStrip
    rw [hdata, hw]
    exact textEndsWith_of_append w analysisIncompleteNote.data
  · intro hemp
    have hres : (streamResult env.queryEvents).result = pyStrip taskInterruptedNote := by
      show pyStrip (finalizeText (aggregate env.queryEvents)) = _
      unfold finalizeText
      rw [if_pos hnote, if_pos (by rw [hemp]; rfl)]
    rw [hres]
    decide

set_option maxRecDepth 8192 in
theorem claim_C5_witness :
    ∃ r, (run_claude_sdk envW5 "p" noOpts none none).1 = Except.ok r ∧
      r.success = true ∧ textEndsWith r.result analysisIncompleteNote = true := by
  obtain ⟨r, h1, h2, h3, -⟩ :=
    claim_C5_amended envW5 "p" noOpts none none (by decide) (by decide)
  exact ⟨r, h1, h2, h3 (by decide)⟩

/-- A run cancelled while streaming, after one buffered chunk: the raised
`CancelledError` is a `BaseException`, not an `Exception`. -/
def envC7 : Env :=
  { cfg := cfgW
    ctorFull := CtorOutcome.ok
    ctorMinimal := none
    queryEvents := [Message.assistant [ContentItem.text "halfdone"]]
    queryError := some { msg := "CancelledError", isException := false }
    cliRun := none
    cliJson := fun _ => JsonOutcome.decodeError }

/-- A run cancelled while streaming before any event. -/
def envW7 : Env :=
  { cfg := cfgW
    ctorFull := CtorOutcome.ok
    ctorMinimal := none
    queryEvents := []
    queryError := some { msg := "CancelledError", isException := false }
    cliRun := none
    cliJson := fun _ => JsonOutcome.decodeError }

/-- Claim C7 (corrected): a cancellation raised while streaming is not
turned into a failed result — neither `except Exception` handler catches a
`BaseException`-only `CancelledError`, so it propagates out of
`run_claude_sdk` and no result dictionary (with any category) is
returned; the buffered chunk is simply lost. -/
theorem claim_C7_counterexample :
    errResult (run_claude_sdk envC7 "p" noOpts none none).1 =
      some { msg := "CancelledError", isException := false } ∧
    okResult (run_claude_sdk envC7 "p" noOpts none none).1 = none := by
  constructor
  · decide
  · decide

/-- Claim C7 (amended): when the streaming call raises a
`BaseException`-class error (a caller-initiated cancellation), the error
propagates to the caller unchanged — no `TaskResult` is returned, no
fallback is invoked, and buffered content is discarded along with the
rest of the run. -/
theorem claim_C7_amended (env : Env) (prompt : String) (opts : CallOptions)
    (session_id working_dir : Option String) (qe : PyErr)
    (hc : ctorOk env = true) (hq : env.queryError = some qe)
    (hbase : qe.isException = false) :
    (run_claude_sdk env prompt opts session_id working_dir).1 = Except.error qe ∧
    (run_claude_sdk env prompt opts session_id working_dir).2.fallbackCalls = [] := by
  have hafter : ∀ tr : Trace,
      afterQuery env prompt (buildOptions env.cfg opts session_id working_dir) tr =
        (Except.error qe, tr) := by
    intro tr
    unfold afterQuery
    simp only [hq]
    rw [if_neg (by rw [hbase]; exact Bool.false_ne_true)]
  have hbody : (runBody env prompt opts session_id working_dir).1 = Except.error qe ∧
      (runBody env prompt opts session_id working_dir).2.fallbackCalls = [] := by
    unfold runBody
    cases hcf : env.ctorFull with
    | ok => simp [hafter]
    | typeError m =>
      simp only [ctorOk, hcf] at hc
      cases hcm : env.ctorMinimal with
      | some e => rw [hcm] at hc; exact (Bool.false_ne_true hc).elim
      | none => simp [hcm, hafter]
    | otherError e =>
      simp only [ctorOk, hcf] at hc
      exact (Bool.false_ne_true hc).elim
  refine ⟨run_propagates env prompt opts session_id working_dir qe hbody.1 hbase, ?_⟩
  rw [run_trace]
  exact hbody.2

theorem claim_C7_witness :
    (run_claude_sdk envW7 "p" noOpts none none).1 =
      Except.error { msg := "CancelledError", isException := false } ∧
    (run_claude_sdk envW7 "p" noOpts none none).2.fallbackCalls = [] :=
  claim_C7_amended envW7 "p" noOpts none none
    { msg := "CancelledError", isException := false } (by decide) rfl rfl

/-- A run whose stream fails transiently with zero events and whose CLI
fallback exits zero having printed nothing. -/
def envC8 : Env :=
  { cfg := cfgW
    ctorFull := CtorOutcome.ok
    ctorMinimal := none
    queryEvents := []
    queryError := some { msg := "nested TaskGroup failure", isException := true }
    cliRun := some { returncode := 0, stdout := "", stderr := "" }
    cliJson := fun _ => JsonOutcome.decodeError }

/-- A completed run with one buffered chunk. -/
def envW8 : Env :=
  { cfg := cfgW
    ctorFull := CtorOutcome.ok
    ctorMinimal := none
    queryEvents := [Message.assistant [ContentItem.text "x"]]
    queryError := none
    cliRun := none
    cliJson := fun _ => JsonOutcome.decodeError }

/-- Claim C8 (corrected): the fallback-success path copies the process
stdout (or its parsed `result` field) verbatim into the result text, so a
fallback that exits zero with empty output produces a successful
`TaskResult` whose result text is empty. -/
theorem claim_C8_counterexample :
    okResult (run_claude_sdk envC8 "p" noOpts none none).1 =
      some { success := true, result := "", session_id := none, cost := 0, error := none } := by
  decide

set_option maxRecDepth 8192 in
/-- Claim C8 (amended): every exit through the finalization code returns a
non-empty result text, and every failure exit carries the rewritten error
message, which is non-empty whenever the underlying message is; only the
fallback-success path can return an empty text (see the
counterexample). -/
theorem claim_C8_amended :
    (∀ (env : Env) (prompt : String) (opts : CallOptions)
      (session_id working_dir : Option String), reachesFinalize env = true →
      ∃ r, (run_claude_sdk env prompt opts session_id working_dir).1 = Except.ok r ∧
        r.success = true ∧ r.result ≠ "") ∧
    (∀ (cfg : Config) (m : String), m ≠ "" → rewriteErrorMessage cfg m ≠ "") := by
  constructor
  · intro env prompt opts session_id working_dir hfin
    obtain ⟨hok, -⟩ := runBody_finalize env prompt opts session_id working_dir hfin
    refine ⟨streamResult env.queryEvents, run_of_body_ok _ _ _ _ _ _ hok, rfl, ?_⟩
    show pyStrip (finalizeText (aggregate env.queryEvents)) ≠ ""
    cases hnn : needsNoteOf (aggregate env.queryEvents) with
    | true =>
      unfold finalizeText
      rw [if_pos hnn]
      by_cases hemp : (aggregate env.queryEvents).assistant_responses.isEmpty = true
      · rw [if_pos hemp]
        decide
      · rw [if_neg hemp]
        apply pyStrip_ne_empty _ (Char.ofNat 42)
        · rw [String.data_append]
          apply List.mem_append_right
          decide
        · decide
    | false =>
      unfold finalizeText
      rw [if_neg (by rw [hnn]; exact Bool.false_ne_true)]
      cases htaj : textAfterJoin (aggregate env.queryEvents) with
      | none =>
        unfold needsNoteOf at hnn
        simp only [htaj] at hnn
        cases hnn
      | some t =>
        unfold needsNoteOf at hnn
        simp only [htaj, Bool.or_eq_false_iff] at hnn
        show pyStrip t ≠ ""
        intro h0
        have hlt : decide ((pyStrip t).length < 50) = false := hnn.2
        rw [decide_eq_false_iff_not] at hlt
        have hz : (pyStrip t).length = 0 := by
          rw [h0]
          decide
        omega
  · intro cfg m hm
    unfold rewriteErrorMessage
    by_cases h1 : (containsSub m "TaskGroup" || containsSub m "JSONDecodeError") = true
    · rw [if_pos h1]
      decide
    · rw [if_neg h1]
      by_cases h2 : containsSub m "cwd" = true
      · rw [if_pos h2]
        intro h0
        have hl := congrArg String.length h0
        rw [String.length_append, String.length_append] at hl
        have h38 : ("Working directory issue. Please check " : String).length = 38 := by decide
        have hz : ("" : String).length = 0 := by decide
        rw [h38, hz] at hl
        omega
      · rw [if_neg h2]
        by_cases h3 : containsSub (pyLower m) "timeout" = true
        · rw [if_pos h3]
          decide
        · rw [if_neg h3]
          by_cases h4 : containsSub m "parsing error" = true
          · rw [if_pos h4]
            decide
          · rw [if_neg h4]
            exact hm

theorem claim_C8_witness :
    (∃ r, (run_claude_sdk envW8 "p" noOpts none none).1 = Except.ok r ∧
      r.success = true ∧ r.result ≠ "") ∧
    rewriteErrorMessage cfgW "zzz" ≠ "" :=
  ⟨claim_C8_amended.1 envW8 "p" noOpts none none (by decide),
   claim_C8_amended.2 cfgW "zzz" (by decide)⟩

/-- A transient failure used by the registry-frame run. -/
def qeW9 : PyErr := { msg := "JSONDecodeError: cut", isException := true }

/-- A degraded run: one buffered chunk, then a transient failure. -/
def envW9 : Env :=
  { cfg := cfgW
    ctorFull := CtorOutcome.ok
    ctorMinimal := none
    queryEvents := [Message.assistant [ContentItem.text "keep"]]
    queryError := some qeW9
    cliRun := none
    cliJson := fun _ => JsonOutcome.decodeError }

/-- A registry holding a token for one conversation key. -/
def sessions0 : String → Option String :=
  fun k => if k = "U1:C1" then some "tok0" else none

/-- The result of the `envW9` degraded run. -/
def resW9 : SdkResult :=
  { success := true
    result := "keep" ++ "\n\n" ++ analysisIncompleteNote
    session_id := none
    cost := 0
    error := none }

/-- Claim C9: a run that fails transiently with no authoritative outcome
buffered — which covers every degraded-success and every fallback run —
returns no session id, so the session-registry update in
`handle_code_command` writes nothing: `Get` returns exactly what it
returned before, for every key. -/
theorem claim_C9_registry_frame (env : Env) (prompt : String) (opts : CallOptions)
    (session_id working_dir : Option String) (qe : PyErr)
    (hc : ctorOk env = true) (hq : env.queryError = some qe)
    (hexc : qe.isException = true) (htr : isTransient qe.msg = true)
    (hnoauth : env.queryEvents.filter isAuthoritative = [])
    (sessions : String → Option String) (session_key : String) :
    ∀ r, (run_claude_sdk env prompt opts session_id working_dir).1 = Except.ok r →
      r.session_id = none ∧
      ∀ k, updateSession sessions session_key r k = sessions k := by
  have hsid : ∀ r, (run_claude_sdk env prompt opts session_id working_dir).1 = Except.ok r →
      r.session_id = none := by
    intro r hr
    cases hemp : env.queryEvents with
    | nil =>
      obtain ⟨h1, -⟩ := runBody_fallback env prompt opts session_id working_dir qe
        hc hq hexc htr hemp
      cases hfb : runFallback env with
      | ok v =>
        have hrun := run_of_body_ok env prompt opts session_id working_dir v (h1.trans hfb)
        rw [hrun] at hr
        injection hr with hr
        rw [← hr]
        exact (runFallback_ok_fields env v hfb).2.1
      | error e =>
        have hee := runFallback_error_exc env e hfb
        have hrun := run_of_body_error env prompt opts session_id working_dir e
          (h1.trans hfb) hee
        rw [hrun] at hr
        injection hr with hr
        rw [← hr]
    | cons a t =>
      have hfin : reachesFinalize env = true := by
        unfold reachesFinalize
        rw [hc, Bool.true_and]
        simp only [hq]
        rw [hexc, htr, hemp]
        rfl
      obtain ⟨hok, -⟩ := runBody_finalize env prompt opts session_id working_dir hfin
      have hrun := run_of_body_ok env prompt opts session_id working_dir _ hok
      rw [hrun] at hr
      injection hr with hr
      rw [← hr]
      show (aggregate env.queryEvents).session_id = none
      exact (aggregate_no_auth env.queryEvents hnoauth).2.1
  intro r hr
  refine ⟨hsid r hr, ?_⟩
  intro k
  unfold updateSession
  rw [hsid r hr]

set_option maxRecDepth 8192 in
theorem claim_C9_witness :
    resW9.session_id = none ∧
    updateSession sessions0 "U1:C1" resW9 "U1:C1" = some "tok0" := by
  obtain ⟨h1, h2⟩ := claim_C9_registry_frame envW9 "p" noOpts none none qeW9
    (by decide) rfl rfl (by decide) (by decide) sessions0 "U1:C1" resW9 (by rfl)
  refine ⟨h1, ?_⟩
  rw [h2 "U1:C1"]
  rfl

theorem claim_C10_witness :
    format_code_blocks "abc" = "abc" ∧
    format_code_blocks (fenceStr ++ "py" ++ "\n" ++ "x" ++ fenceStr) =
      fenceStr ++ "x" ++ fenceStr :=
  ⟨claim_C10_format_blocks.1 "abc" (by decide),
   claim_C10_format_blocks.2 "py" "x" (by decide) (by decide)⟩

end SlackClaude
